import Mathlib

/-!
Verification of the watch/build/reload orchestration core of `cargo-leptos`
(`src/main.rs`), as a shallow embedding in Lean 4.

External build steps (`assets::update`, `sass::run`, `Html::read`,
`wasm::build`, `html.generate_html` / `generate_rust`, `cargo::build`,
`cargo::run`) are collaborators that report success or failure; each run of
the pipeline is therefore parameterised by the outcome every collaborator
would report if invoked (`RunEnv`).  The broadcast bus is modelled as the
ordered stream of messages a subscriber observes; the `SHUTDOWN` flag reads
of the watch loop are modelled as the stream of values observed at the
successive read points (an exhausted stream reads `false`, i.e. the flag was
never set).
-/

namespace CargoLeptos

/-- Modelled from the spec: `run::watch::Watched` (the file `run/watch.rs` is
not part of the sources); §3 describes it as a change descriptor naming which
asset path changed and the kind of filesystem operation. -/
inductive FsOp where
  | create
  | modify
  | remove
  | rename
  deriving DecidableEq, Repr

/-- Modelled from the spec: the change descriptor carried by an asset-change
event (§3). -/
structure Watched where
  path : String
  op : FsOp
  deriving DecidableEq, Repr

/-- The `Msg` enum of `main.rs` (lines 24-36): the typed events carried by the
broadcast `MSG_BUS`. -/
inductive Msg where
  | ShutDown
  | SrcChanged
  | AssetsChanged (w : Watched)
  | StyleChanged
  | Reload (s : String)
  deriving DecidableEq, Repr

/-- The named stages of one `build` pipeline run, in the order the source
executes them: `rm_dir_content` (clean), `assets::update`, `sass::run`,
`Html::read`, `wasm::build`, `generate_html`/`generate_rust`, and the server
`cargo::build`. -/
inductive Stage where
  | clean
  | assetSync
  | styleCompile
  | readIndex
  | codeCompile
  | artifactGen
  | serverCompile
  deriving DecidableEq, Repr

/-- Outcomes the external collaborators of one pipeline run would report if
invoked, one field per fallible call site of `build`/`build_client`. -/
structure RunEnv where
  cleanR : Except String Unit
  assetsR : Except String Unit
  sassR : Except String Unit
  htmlR : Except String Unit
  wasmR : Except String Unit
  genR : Except String Unit
  cargoR : Except String Unit
  deriving Repr

def okB : Except String Unit → Bool
  | Except.ok _ => true
  | Except.error _ => false

/-- `build_client` (main.rs lines 169-182): `sass::run?`, `Html::read?`, then
`wasm::build?` and HTML generation (`generate_html` in csr mode,
`generate_rust` otherwise; both are the `artifactGen` stage).  Returns the
list of stages that actually ran together with the propagated result. -/
def build_client (env : RunEnv) : List Stage × Except String Unit :=
  match env.sassR with
  | Except.error e => ([Stage.styleCompile], Except.error e)
  | Except.ok _ =>
    match env.htmlR with
    | Except.error e => ([Stage.styleCompile, Stage.readIndex], Except.error e)
    | Except.ok _ =>
      match env.wasmR with
      | Except.error e =>
        ([Stage.styleCompile, Stage.readIndex, Stage.codeCompile], Except.error e)
      | Except.ok _ =>
        match env.genR with
        | Except.error e =>
          ([Stage.styleCompile, Stage.readIndex, Stage.codeCompile,
            Stage.artifactGen], Except.error e)
        | Except.ok _ =>
          ([Stage.styleCompile, Stage.readIndex, Stage.codeCompile,
            Stage.artifactGen], Except.ok ())

/-- `build` (main.rs lines 156-168): clean `target/site/pkg`, optionally
`assets::update` when `copy_assets`, then `build_client`, then the server
`cargo::build` unless `csr`.  Each later call runs only when every earlier
call returned `Ok`, via `?` propagation. -/
def build (env : RunEnv) (copyAssets csr : Bool) : List Stage × Except String Unit :=
  match env.cleanR with
  | Except.error e => ([Stage.clean], Except.error e)
  | Except.ok _ =>
    if copyAssets then
      match env.assetsR with
      | Except.error e => ([Stage.clean, Stage.assetSync], Except.error e)
      | Except.ok _ =>
        match build_client env with
        | (tr, Except.error e) =>
          (Stage.clean :: Stage.assetSync :: tr, Except.error e)
        | (tr, Except.ok _) =>
          if csr then (Stage.clean :: Stage.assetSync :: tr, Except.ok ())
          else
            match env.cargoR with
            | Except.error e =>
              (Stage.clean :: Stage.assetSync :: tr ++ [Stage.serverCompile],
               Except.error e)
            | Except.ok _ =>
              (Stage.clean :: Stage.assetSync :: tr ++ [Stage.serverCompile],
               Except.ok ())
    else
      match build_client env with
      | (tr, Except.error e) => (Stage.clean :: tr, Except.error e)
      | (tr, Except.ok _) =>
        if csr then (Stage.clean :: tr, Except.ok ())
        else
          match env.cargoR with
          | Except.error e =>
            (Stage.clean :: tr ++ [Stage.serverCompile], Except.error e)
          | Except.ok _ =>
            (Stage.clean :: tr ++ [Stage.serverCompile], Except.ok ())

/-- The fixed stage order of the pipeline. -/
def stageOrder : List Stage :=
  [Stage.clean, Stage.assetSync, Stage.styleCompile, Stage.readIndex,
   Stage.codeCompile, Stage.artifactGen, Stage.serverCompile]

/-- `isOrderedSub l big` holds when `l` is a subsequence of `big`, i.e. the
elements of `l` appear in `big` in the same relative order. -/
def isOrderedSub : List Stage → List Stage → Bool
  | [], _ => true
  | _ :: _, [] => false
  | a :: as, b :: bs => if a = b then isOrderedSub as bs else isOrderedSub (a :: as) bs

/-- The collaborator outcome backing each stage of a run. -/
def stageOk (env : RunEnv) : Stage → Bool
  | Stage.clean => okB env.cleanR
  | Stage.assetSync => okB env.assetsR
  | Stage.styleCompile => okB env.sassR
  | Stage.readIndex => okB env.htmlR
  | Stage.codeCompile => okB env.wasmR
  | Stage.artifactGen => okB env.genR
  | Stage.serverCompile => okB env.cargoR

/-- Every stage of the list that is followed by another stage succeeded. -/
def chainOk (env : RunEnv) : List Stage → Bool
  | [] => true
  | [_] => true
  | s :: rest => stageOk env s && chainOk env rest

/-- The actions the ctrl-c handler task and `send_reload` can perform on the
shared state (flag writes, bus sends, log lines, a panic of the task). -/
inductive HAct where
  | logInfo (s : String)
  | setFlag (b : Bool)
  | sendMsg (m : Msg)
  | panicked
  deriving DecidableEq, Repr

/-- The ctrl-c handler task of `main` (lines 133-138): log, set `SHUTDOWN`
to `true`, then `MSG_BUS.send(Msg::ShutDown).unwrap()` — the `unwrap`
panics the task when the send fails, which happens exactly when there are
zero subscribers. -/
def ctrlcHandler (subscribers : Nat) : List HAct :=
  HAct.logInfo "Leptos ctrl-c received" ::
  HAct.setFlag true ::
  HAct.sendMsg Msg.ShutDown ::
  (if subscribers = 0 then [HAct.panicked] else [])

/-- Pairs every action of a handler trace with the value the shutdown flag
holds at the moment the action happens (a `setFlag` is paired with the value
it writes). -/
def runFlag : List HAct → Bool → List (Bool × HAct)
  | [], _ => []
  | HAct.setFlag b :: rest, _ => (b, HAct.setFlag b) :: runFlag rest b
  | a :: rest, f => (f, a) :: runFlag rest f

/-- The flag-write and bus-send actions of a trace, log lines and panics
dropped. -/
def stateActs : List HAct → List HAct
  | [] => []
  | HAct.setFlag b :: rest => HAct.setFlag b :: stateActs rest
  | HAct.sendMsg m :: rest => HAct.sendMsg m :: stateActs rest
  | _ :: rest => stateActs rest

/-- Checks that every `ShutDown` send in a flag-annotated trace happens while
the flag reads `true`. -/
def shutdownSentWithFlag : List (Bool × HAct) → Bool
  | [] => true
  | (f, HAct.sendMsg Msg.ShutDown) :: rest => f && shutdownSentWithFlag rest
  | _ :: rest => shutdownSentWithFlag rest

/-- The values written to the shutdown flag by a trace of actions. -/
def flagWrites (l : List HAct) : List Bool :=
  l.filterMap fun a =>
    match a with
    | HAct.setFlag b => some b
    | _ => none

/-- The successive values of the flag: its initial value followed by each
written value (every write is an absolute assignment). -/
def flagTraj (init : Bool) (ws : List Bool) : List Bool :=
  init :: ws

/-- Checks that once a value sequence reads `true` it reads `true` forever. -/
def onceTrueStaysTrue : List Bool → Bool
  | [] => true
  | true :: rest => rest.all fun b => b
  | false :: rest => onceTrueStaysTrue rest

/-- The effect of one `send_reload` call: the bus messages it published and
the log lines it emitted. -/
structure ReloadEffect where
  published : List Msg
  logged : List String
  deriving DecidableEq, Repr

/-- `send_reload` (main.rs lines 149-155): read the `SHUTDOWN` flag first;
when it is `true` do nothing at all; otherwise publish `Msg::Reload("reload")`
and, when the send fails (zero subscribers), log the error instead. -/
def send_reload (flag : Bool) (subscribers : Nat) : ReloadEffect :=
  if flag then ⟨[], []⟩
  else if subscribers = 0 then ⟨[], ["Leptos failed to send reload"]⟩
  else ⟨[Msg.Reload "reload"], []⟩

/-- Argument preprocessing of `main` (lines 103-110): when the second element
of the argument vector is exactly `"leptos"` it is removed before the vector
is handed to the CLI parser; otherwise the vector is handed over unchanged. -/
def normalizeArgs (args : List String) : List String :=
  if args.get? 1 = some "leptos" then args.eraseIdx 1 else args

/-- Modelled from the spec: `util::wait_for` (the file `util.rs` is not part
of the sources); §4.2 describes it as a primitive that blocks until one of a
set of events arrives on the bus.  Given the stream of messages the wait's
subscription observes, returns the consumed prefix (ending with the first
message belonging to `events`) and the remaining stream, or `none` when no
awaited message ever arrives (the wait blocks forever). -/
def wait_for (events : List Msg) : List Msg → List Msg × Option (List Msg)
  | [] => ([], none)
  | m :: rest =>
    if m ∈ events then ([m], some rest)
    else
      let r := wait_for events rest
      (m :: r.1, r.2)

/-- The Suspended-On-Error wait of `watch` (main.rs line 223):
`while MSG_BUS.subscribe().recv().await? != Msg::SrcChanged {}`.  The loop
keeps receiving until the received message is exactly `SrcChanged`; every
other message, `ShutDown` included, makes it subscribe and wait again.
Returns the consumed prefix and the remaining stream, or `none` when no
`SrcChanged` ever arrives. -/
def errWaitSplit : List Msg → List Msg × Option (List Msg)
  | [] => ([], none)
  | m :: rest =>
    if m = Msg.SrcChanged then ([m], some rest)
    else
      let r := errWaitSplit rest
      (m :: r.1, r.2)

/-- One value taken from the stream of flag reads; an exhausted stream reads
`false` (the flag was never set). -/
def takeFlag : List Bool → Bool × List Bool
  | [] => (false, [])
  | b :: rest => (b, rest)

/-- What one iteration of the `watch` loop (main.rs lines 206-226) did: the
`copy_assets` argument of its `build` call, the stages that ran, whether the
run succeeded, whether `send_reload` published a `Reload` message afterwards,
and the bus messages consumed by the wait that followed the run. -/
structure IterRec where
  copyAssets : Bool
  stages : List Stage
  ok : Bool
  reloadPub : Bool
  waited : List Msg
  deriving DecidableEq, Repr

/-- How an evaluation of the watch loop ended. -/
inductive ExitKind where
  | fuelOut
  | starvedEnv
  | exitOk
  | exitErr (e : String)
  | blocked
  deriving DecidableEq, Repr

/-- The `watch` loop of main.rs (lines 206-226), driven by an environment:
`runs` supplies the collaborator outcomes of each successive `build` call,
`cargos` the results of the successive `cargo::run` calls (non-csr mode),
`msgs` the bus stream the waits observe, and `flags` the values the
successive `SHUTDOWN` reads observe.  Each iteration calls
`build(config, false)`; on `Ok` it calls `send_reload`, then either
`wait_for(&[SrcChanged, ShutDown])` (csr) or `cargo::run` (whose error exits
the loop via `?`), then breaks when the flag reads `true`; on `Err` it logs
and blocks until a `SrcChanged` is received, then loops.  `fuel` bounds the
number of iterations evaluated; `ExitKind.fuelOut`/`starvedEnv` mark an
evaluation cut short by the environment rather than an exit of the loop. -/
def watchLoop : Nat → Bool → Nat → List RunEnv → List (Except String Unit) →
    List Msg → List Bool → List IterRec × ExitKind
  | 0, _, _, _, _, _, _ => ([], ExitKind.fuelOut)
  | _ + 1, _, _, [], _, _, _ => ([], ExitKind.starvedEnv)
  | fuel + 1, csr, subscribers, renv :: runs, cargos, msgs, flags =>
    match (build renv false csr).2 with
    | Except.error _ =>
      match errWaitSplit msgs with
      | (consumed, none) =>
        ([{ copyAssets := false, stages := (build renv false csr).1, ok := false,
            reloadPub := false, waited := consumed }], ExitKind.blocked)
      | (consumed, some msgsLeft) =>
        let r := watchLoop fuel csr subscribers runs cargos msgsLeft flags
        ({ copyAssets := false, stages := (build renv false csr).1, ok := false,
           reloadPub := false, waited := consumed } :: r.1, r.2)
    | Except.ok _ =>
      let f1 := takeFlag flags
      let pub := !f1.1 && decide (subscribers ≠ 0)
      if csr then
        match wait_for [Msg.SrcChanged, Msg.ShutDown] msgs with
        | (consumed, none) =>
          ([{ copyAssets := false, stages := (build renv false csr).1, ok := true,
              reloadPub := pub, waited := consumed }], ExitKind.blocked)
        | (consumed, some msgsLeft) =>
          let f2 := takeFlag f1.2
          if f2.1 then
            ([{ copyAssets := false, stages := (build renv false csr).1, ok := true,
                reloadPub := pub, waited := consumed }], ExitKind.exitOk)
          else
            let r := watchLoop fuel csr subscribers runs cargos msgsLeft f2.2
            ({ copyAssets := false, stages := (build renv false csr).1, ok := true,
               reloadPub := pub, waited := consumed } :: r.1, r.2)
      else
        match cargos with
        | [] =>
          ([{ copyAssets := false, stages := (build renv false csr).1, ok := true,
              reloadPub := pub, waited := [] }], ExitKind.starvedEnv)
        | Except.error e :: _ =>
          ([{ copyAssets := false, stages := (build renv false csr).1, ok := true,
              reloadPub := pub, waited := [] }], ExitKind.exitErr e)
        | Except.ok _ :: cargosLeft =>
          let f2 := takeFlag f1.2
          if f2.1 then
            ([{ copyAssets := false, stages := (build renv false csr).1, ok := true,
                reloadPub := pub, waited := [] }], ExitKind.exitOk)
          else
            let r := watchLoop fuel csr subscribers runs cargosLeft msgs f2.2
            ({ copyAssets := false, stages := (build renv false csr).1, ok := true,
               reloadPub := pub, waited := [] } :: r.1, r.2)

/-- Checks that a wait consumed a stream ending with `SrcChanged`, i.e. the
wait was ended by a `SrcChanged` message. -/
def srcEndsWait : List Msg → Bool
  | [] => false
  | [m] => decide (m = Msg.SrcChanged)
  | _ :: rest => srcEndsWait rest

/-- Checks that every failed iteration that is followed by a further
iteration first had its wait ended by a `SrcChanged` message. -/
def failNeedsSrc : List IterRec → Bool
  | [] => true
  | it :: rest => (it.ok || rest.isEmpty || srcEndsWait it.waited) && failNeedsSrc rest

/-- The tasks spawned by `watch` before its loop (main.rs lines 194-204):
the source watcher, the assets watcher when an assets directory is
configured, the csr static server in csr mode, and the reload server. -/
inductive SpawnedTask where
  | srcWatcher
  | assetsWatcher (dir : String)
  | csrServer
  | reloadServer
  deriving DecidableEq, Repr

/-- The spawn sequence of `watch` (main.rs lines 194-204). -/
def watchSpawns (assetsDir : Option String) (csr : Bool) : List SpawnedTask :=
  SpawnedTask.srcWatcher ::
  ((match assetsDir with
    | some d => [SpawnedTask.assetsWatcher d]
    | none => []) ++
   (if csr then [SpawnedTask.csrServer] else []) ++
   [SpawnedTask.reloadServer])

/-- A `RunEnv` whose first stage (clean) fails and all other collaborators
would succeed. -/
def failEnv : RunEnv :=
  { cleanR := Except.error "build failed", assetsR := Except.ok (),
    sassR := Except.ok (), htmlR := Except.ok (), wasmR := Except.ok (),
    genR := Except.ok (), cargoR := Except.ok () }

/-- A `RunEnv` in which every collaborator succeeds. -/
def okEnv : RunEnv :=
  { cleanR := Except.ok (), assetsR := Except.ok (),
    sassR := Except.ok (), htmlR := Except.ok (), wasmR := Except.ok (),
    genR := Except.ok (), cargoR := Except.ok () }

/-- The subcommands of the `Commands` enum of `main.rs` (lines 85-99). -/
inductive CliCommand where
  | config
  | build
  | test
  | serve
  | watch
  | new
  deriving DecidableEq, Repr

/-- Modelled from the spec: the clap parse of the `Commands` subcommand
declared in `main.rs` (clap itself is an external collaborator, §6: commands
map the subcommand word to one operation).  Restricted to flag-free argument
vectors: the first argument after the program name must name a subcommand,
anything else fails to parse. -/
def parseCli : List String → Option CliCommand
  | _ :: "config" :: _ => some CliCommand.config
  | _ :: "build" :: _ => some CliCommand.build
  | _ :: "test" :: _ => some CliCommand.test
  | _ :: "serve" :: _ => some CliCommand.serve
  | _ :: "watch" :: _ => some CliCommand.watch
  | _ :: "new" :: _ => some CliCommand.new
  | _ => none

lemma build_client_sub (env : RunEnv) :
    List.Sublist (build_client env).1
      [Stage.styleCompile, Stage.readIndex, Stage.codeCompile, Stage.artifactGen] := by
  unfold build_client
  rcases env.sassR with e | u
  · simp
  · rcases env.htmlR with e | u
    · simp
    · rcases env.wasmR with e | u
      · simp
      · rcases env.genR with e | u <;> simp

lemma build_head (env : RunEnv) (copyAssets csr : Bool) :
    (build env copyAssets csr).1.head? = some Stage.clean := by
  obtain ⟨cR, aR, sR, hR, wR, gR, cbR⟩ := env
  rcases cR with e1 | u1 <;> rcases aR with e2 | u2 <;> rcases sR with e3 | u3 <;>
    rcases hR with e4 | u4 <;> rcases wR with e5 | u5 <;> rcases gR with e6 | u6 <;>
    rcases cbR with e7 | u7 <;> cases copyAssets <;> cases csr <;>
    simp [build, build_client]

lemma build_no_assetSync (env : RunEnv) (csr : Bool) :
    Stage.assetSync ∉ (build env false csr).1 := by
  obtain ⟨cR, aR, sR, hR, wR, gR, cbR⟩ := env
  rcases cR with e1 | u1 <;> rcases sR with e3 | u3 <;> rcases hR with e4 | u4 <;>
    rcases wR with e5 | u5 <;> rcases gR with e6 | u6 <;> rcases cbR with e7 | u7 <;>
    cases csr <;> simp [build, build_client]

lemma errWaitSplit_src : ∀ (msgs msgsLeft : List Msg),
    (errWaitSplit msgs).2 = some msgsLeft → srcEndsWait (errWaitSplit msgs).1 = true := by
  intro msgs
  induction msgs with
  | nil => intro msgsLeft h; simp [errWaitSplit] at h
  | cons m rest ih =>
    intro msgsLeft h
    by_cases hm : m = Msg.SrcChanged
    · simp [errWaitSplit, hm, srcEndsWait]
    · simp only [errWaitSplit, if_neg hm] at h ⊢
      have h1 := ih msgsLeft h
      cases hr : (errWaitSplit rest).1 with
      | nil => rw [hr] at h1; simp [srcEndsWait] at h1
      | cons a t => rw [hr] at h1; simpa [srcEndsWait] using h1

lemma watchLoop_iter_shape : ∀ (fuel : Nat) (csr : Bool) (subscribers : Nat)
    (runs : List RunEnv) (cargos : List (Except String Unit)) (msgs : List Msg)
    (flags : List Bool) (it : IterRec),
    it ∈ (watchLoop fuel csr subscribers runs cargos msgs flags).1 →
    it.copyAssets = false
    ∧ (∃ renv, it.stages = (build renv false csr).1
        ∧ it.ok = okB (build renv false csr).2)
    ∧ (it.ok = false → it.reloadPub = false) := by
  intro fuel
  induction fuel with
  | zero =>
    intro csr subscribers runs cargos msgs flags it mem
    simp [watchLoop] at mem
  | succ fuel ih =>
    intro csr subscribers runs cargos msgs flags it mem
    cases runs with
    | nil => simp [watchLoop] at mem
    | cons renv runsLeft =>
      simp only [watchLoop] at mem
      split at mem
      case _ e heq =>
        split at mem
        case _ consumed heq2 =>
          simp at mem
          subst mem
          exact ⟨rfl, ⟨renv, rfl, by rw [heq]; rfl⟩, fun _ => rfl⟩
        case _ consumed msgsLeft heq2 =>
          simp at mem
          rcases mem with rfl | mem
          · exact ⟨rfl, ⟨renv, rfl, by rw [heq]; rfl⟩, fun _ => rfl⟩
          · exact ih csr subscribers runsLeft cargos msgsLeft flags it mem
      case _ u heq =>
        split at mem
        · split at mem
          case _ consumed heq2 =>
            simp at mem
            subst mem
            exact ⟨rfl, ⟨renv, rfl, by rw [heq]; rfl⟩, by simp⟩
          case _ consumed msgsLeft heq2 =>
            split at mem
            · simp at mem
              subst mem
              exact ⟨rfl, ⟨renv, rfl, by rw [heq]; rfl⟩, by simp⟩
            · simp at mem
              rcases mem with rfl | mem
              · exact ⟨rfl, ⟨renv, rfl, by rw [heq]; rfl⟩, by simp⟩
              · exact ih csr subscribers runsLeft cargos msgsLeft
                  (takeFlag (takeFlag flags).2).2 it mem
        · split at mem
          · simp at mem
            subst mem
            exact ⟨rfl, ⟨renv, rfl, by rw [heq]; rfl⟩, by simp⟩
          · simp at mem
            subst mem
            exact ⟨rfl, ⟨renv, rfl, by rw [heq]; rfl⟩, by simp⟩
          case _ cargosLeft =>
            split at mem
            · simp at mem
              subst mem
              exact ⟨rfl, ⟨renv, rfl, by rw [heq]; rfl⟩, by simp⟩
            · simp at mem
              rcases mem with rfl | mem
              · exact ⟨rfl, ⟨renv, rfl, by rw [heq]; rfl⟩, by simp⟩
              · exact ih csr subscribers runsLeft cargosLeft msgs
                  (takeFlag (takeFlag flags).2).2 it mem

lemma watchLoop_failNeedsSrc : ∀ (fuel : Nat) (csr : Bool) (subscribers : Nat)
    (runs : List RunEnv) (cargos : List (Except String Unit)) (msgs : List Msg)
    (flags : List Bool),
    failNeedsSrc (watchLoop fuel csr subscribers runs cargos msgs flags).1 = true := by
  intro fuel
  induction fuel with
  | zero =>
    intro csr subscribers runs cargos msgs flags
    simp [watchLoop, failNeedsSrc]
  | succ fuel ih =>
    intro csr subscribers runs cargos msgs flags
    cases runs with
    | nil => simp [watchLoop, failNeedsSrc]
    | cons renv runsLeft =>
      simp only [watchLoop]
      split
      · split
        case _ consumed heq2 =>
          simp [failNeedsSrc]
        case _ consumed msgsLeft heq2 =>
          have hsrc : srcEndsWait consumed = true := by
            have h1 := errWaitSplit_src msgs msgsLeft (by rw [heq2])
            rw [heq2] at h1
            exact h1
          simp [failNeedsSrc, hsrc, ih]
      · split
        · split
          · simp [failNeedsSrc]
          · split
            · simp [failNeedsSrc]
            · simp [failNeedsSrc, ih]
        · split
          · simp [failNeedsSrc]
          · simp [failNeedsSrc]
          · split
            · simp [failNeedsSrc]
            · simp [failNeedsSrc, ih]

/-- Claim C1, evaluated at its failing input: after a failed build the
Suspended-On-Error wait of the watch loop does not treat `ShutDown` as part
of the awaited event set.  `errWaitSplit [ShutDown]` consumes the `ShutDown`
message and keeps waiting (`none`), so a watch loop whose only further bus
message is `ShutDown` stays `blocked` instead of exiting — while the same
stream does end the Ok-branch `wait_for([SrcChanged, ShutDown])`, and a
`SrcChanged` does end the error wait. -/
theorem c1_error_wait_ignores_shutdown :
    (errWaitSplit [Msg.ShutDown]).2 = none
    ∧ watchLoop 2 true 1 [failEnv] [] [Msg.ShutDown] []
        = ([{ copyAssets := false, stages := [Stage.clean], ok := false,
              reloadPub := false, waited := [Msg.ShutDown] }], ExitKind.blocked)
    ∧ (wait_for [Msg.SrcChanged, Msg.ShutDown] [Msg.ShutDown]).2 = some []
    ∧ (errWaitSplit [Msg.SrcChanged]).2 = some [] := by
  refine ⟨rfl, ?_, rfl, rfl⟩
  decide

/-- Claim C2: in every evaluation of the watch loop, a failed pipeline run is
followed by a further run only after the error wait received a `SrcChanged`
message, and every pipeline run the loop starts begins at the first stage
(clean) — there is no partial re-run. -/
theorem c2_failure_suspends_until_src (fuel : Nat) (csr : Bool)
    (subscribers : Nat) (runs : List RunEnv) (cargos : List (Except String Unit))
    (msgs : List Msg) (flags : List Bool) :
    failNeedsSrc (watchLoop fuel csr subscribers runs cargos msgs flags).1 = true
    ∧ ((watchLoop fuel csr subscribers runs cargos msgs flags).1.all
        fun it => decide (it.stages.head? = some Stage.clean)) = true := by
  constructor
  · exact watchLoop_failNeedsSrc fuel csr subscribers runs cargos msgs flags
  · rw [List.all_eq_true]
    intro it mem
    obtain ⟨-, ⟨renv, hst, -⟩, -⟩ :=
      watchLoop_iter_shape fuel csr subscribers runs cargos msgs flags it mem
    rw [hst]
    simp [build_head]

/-- Claim C3: no iteration of the watch loop whose pipeline run failed
publishes a `Reload` message; a reload is sent only on the success branch. -/
theorem c3_failure_publishes_no_reload (fuel : Nat) (csr : Bool)
    (subscribers : Nat) (runs : List RunEnv) (cargos : List (Except String Unit))
    (msgs : List Msg) (flags : List Bool) :
    ((watchLoop fuel csr subscribers runs cargos msgs flags).1.all
      fun it => it.ok || !it.reloadPub) = true := by
  rw [List.all_eq_true]
  intro it mem
  obtain ⟨-, -, himp⟩ :=
    watchLoop_iter_shape fuel csr subscribers runs cargos msgs flags it mem
  cases hok : it.ok with
  | true => simp
  | false => simp [himp hok]

/-- Claim C4, counterexample: the Signal Source's `ShutDown` publish is an
`unwrap`, so with zero bus subscribers the ctrl-c handler task panics rather
than logging the send error. -/
theorem c4_counterexample_shutdown_send_panics : HAct.panicked ∈ ctrlcHandler 0 := by
  decide

/-- Claim C4 as amended: a failed `send_reload` publish is logged and
non-fatal, and with at least one subscriber the ctrl-c handler does not
panic; but the Signal Source's `ShutDown` publish panics the handler task
when there are zero subscribers. -/
theorem c4_send_error_handling (subscribers : Nat) :
    ((send_reload false 0).logged ≠ [] ∧ (send_reload false 0).published = [])
    ∧ (subscribers ≠ 0 → HAct.panicked ∉ ctrlcHandler subscribers)
    ∧ HAct.panicked ∈ ctrlcHandler 0 := by
  refine ⟨⟨by simp [send_reload], by simp [send_reload]⟩, ?_, by decide⟩
  intro h
  simp [ctrlcHandler, h]

/-- Witness for `c4_send_error_handling` at one subscriber. -/
theorem c4_send_error_handling_witness :
    ((send_reload false 0).logged ≠ [] ∧ (send_reload false 0).published = [])
    ∧ HAct.panicked ∉ ctrlcHandler 1
    ∧ HAct.panicked ∈ ctrlcHandler 0 :=
  ⟨(c4_send_error_handling 1).1,
   (c4_send_error_handling 1).2.1 (by decide),
   (c4_send_error_handling 1).2.2⟩

/-- Claim C5: the ctrl-c handler's flag/bus actions are exactly the flag
write of `true` followed by the `ShutDown` publish, and at the moment the
`ShutDown` send happens the shutdown flag already holds `true`, whatever the
flag held before and however many subscribers there are. -/
theorem c5_flag_set_before_shutdown_publish (subscribers : Nat) (flag0 : Bool) :
    stateActs (ctrlcHandler subscribers)
      = [HAct.setFlag true, HAct.sendMsg Msg.ShutDown]
    ∧ shutdownSentWithFlag (runFlag (ctrlcHandler subscribers) flag0) = true := by
  cases subscribers <;> cases flag0 <;>
    simp [ctrlcHandler, stateActs, runFlag, shutdownSentWithFlag]

/-- Claim C7: the only value the program ever writes to the shutdown flag is
`true` (the handler's single write site), so along the flag's value
trajectory, once it reads `true` it never reads `false` again. -/
theorem c7_flag_write_once (subscribers : Nat) (init : Bool) :
    ((flagWrites (ctrlcHandler subscribers)).all fun b => b) = true
    ∧ onceTrueStaysTrue (flagTraj init (flagWrites (ctrlcHandler subscribers))) = true := by
  cases subscribers <;> cases init <;>
    simp [ctrlcHandler, flagWrites, flagTraj, onceTrueStaysTrue]

/-- Claim C8: when the shutdown flag reads `true`, `send_reload` publishes
nothing and logs nothing — the suppression is silent. -/
theorem c8_shutdown_suppresses_reload_silently (subscribers : Nat) :
    (send_reload true subscribers).published = []
    ∧ (send_reload true subscribers).logged = [] := by
  simp [send_reload]

/-- Claim C9: every pipeline run started by the watch loop passes
`copy_assets = false` and its stage list never contains the asset-sync
stage; the assets watcher is a separately spawned task whenever an assets
directory is configured. -/
theorem c9_rebuild_never_copies_assets (fuel : Nat) (csr : Bool)
    (subscribers : Nat) (runs : List RunEnv) (cargos : List (Except String Unit))
    (msgs : List Msg) (flags : List Bool) (d : String) :
    ((watchLoop fuel csr subscribers runs cargos msgs flags).1.all
      fun it => !it.copyAssets && !(decide (Stage.assetSync ∈ it.stages))) = true
    ∧ SpawnedTask.assetsWatcher d ∈ watchSpawns (some d) csr := by
  constructor
  · rw [List.all_eq_true]
    intro it mem
    obtain ⟨hcopy, ⟨renv, hst, -⟩, -⟩ :=
      watchLoop_iter_shape fuel csr subscribers runs cargos msgs flags it mem
    rw [hcopy, hst]
    simp [build_no_assetSync]
  · simp [watchSpawns]

/-- Claim C6: the stages a pipeline run executes always appear in the fixed
order clean, asset sync, style compile, read index, code compile, artifact
generation, server compile; every stage that is followed by another stage
succeeded; the run's outcome is success exactly when every executed stage
succeeded; in csr mode the server-compile stage never runs; and a successful
run executes exactly the enabled stages (asset sync only when asset copying
is enabled, server compile only outside csr mode). -/
theorem c6_pipeline_stage_order (env : RunEnv) (copyAssets csr : Bool) :
    isOrderedSub (build env copyAssets csr).1 stageOrder = true
    ∧ chainOk env (build env copyAssets csr).1 = true
    ∧ okB (build env copyAssets csr).2
        = (build env copyAssets csr).1.all (stageOk env)
    ∧ (csr = true → Stage.serverCompile ∉ (build env copyAssets csr).1)
    ∧ (okB (build env copyAssets csr).2 = true →
        (build env copyAssets csr).1
          = Stage.clean :: ((if copyAssets then [Stage.assetSync] else [])
              ++ [Stage.styleCompile, Stage.readIndex, Stage.codeCompile,
                  Stage.artifactGen]
              ++ (if csr then [] else [Stage.serverCompile]))) := by
  obtain ⟨cR, aR, sR, hR, wR, gR, cbR⟩ := env
  rcases cR with e1 | u1 <;> rcases aR with e2 | u2 <;> rcases sR with e3 | u3 <;>
    rcases hR with e4 | u4 <;> rcases wR with e5 | u5 <;> rcases gR with e6 | u6 <;>
    rcases cbR with e7 | u7 <;> cases copyAssets <;> cases csr <;>
    simp [build, build_client, isOrderedSub, stageOrder, chainOk, stageOk, okB]

/-- Witness for `c6_pipeline_stage_order`: a run with every collaborator
succeeding, asset copying on, in csr mode. -/
theorem c6_pipeline_stage_order_witness :
    isOrderedSub (build okEnv true true).1 stageOrder = true
    ∧ Stage.serverCompile ∉ (build okEnv true true).1
    ∧ (build okEnv true true).1
        = Stage.clean :: ((if true then [Stage.assetSync] else [])
            ++ [Stage.styleCompile, Stage.readIndex, Stage.codeCompile,
                Stage.artifactGen]
            ++ (if true then [] else [Stage.serverCompile])) :=
  ⟨(c6_pipeline_stage_order okEnv true true).1,
   (c6_pipeline_stage_order okEnv true true).2.2.2.1 rfl,
   (c6_pipeline_stage_order okEnv true true).2.2.2.2 (by decide)⟩

/-- Claim C10, counterexample: for the argument vector
`["cargo-leptos", "leptos", "leptos", "build"]` the program does not behave
like the invocation with the second element removed.  The program strips one
`"leptos"` and hands `["cargo-leptos", "leptos", "build"]` to the parser,
which fails; invoking with the element removed strips the remaining
`"leptos"` as well and parses the `build` subcommand. -/
theorem c10_counterexample_double_leptos :
    normalizeArgs ["cargo-leptos", "leptos", "leptos", "build"]
        ≠ normalizeArgs (["cargo-leptos", "leptos", "leptos", "build"].eraseIdx 1)
    ∧ parseCli (normalizeArgs ["cargo-leptos", "leptos", "leptos", "build"]) = none
    ∧ parseCli (normalizeArgs
        (["cargo-leptos", "leptos", "leptos", "build"].eraseIdx 1))
        = some CliCommand.build := by
  refine ⟨?_, rfl, rfl⟩
  decide

/-- Claim C10 as amended: a vector whose second element is `"leptos"` is
parsed with exactly that element removed (a single removal), a vector whose
second element is anything else is parsed unchanged, and the behaviour
coincides with the invocation on the removed vector provided the removed
vector does not itself carry `"leptos"` as its second element. -/
theorem c10_leptos_arg_stripped_once (args : List String) :
    (args.get? 1 = some "leptos" → normalizeArgs args = args.eraseIdx 1)
    ∧ (args.get? 1 ≠ some "leptos" → normalizeArgs args = args)
    ∧ (args.get? 1 = some "leptos" → (args.eraseIdx 1).get? 1 ≠ some "leptos" →
        normalizeArgs args = normalizeArgs (args.eraseIdx 1)) := by
  refine ⟨fun h => ?_, fun h => ?_, fun h h2 => ?_⟩
  · rw [List.get?_eq_getElem?] at h
    simp [normalizeArgs, h]
  · rw [List.get?_eq_getElem?] at h
    simp [normalizeArgs, h]
  · rw [List.get?_eq_getElem?] at h
    rw [List.get?_eq_getElem?] at h2
    simp [normalizeArgs, h, h2]

/-- Witness for `c10_leptos_arg_stripped_once` at the two invocation forms of
the same command. -/
theorem c10_leptos_arg_stripped_once_witness :
    normalizeArgs ["cargo-leptos", "leptos", "build"]
        = ["cargo-leptos", "leptos", "build"].eraseIdx 1
    ∧ normalizeArgs ["cargo-leptos", "build"] = ["cargo-leptos", "build"]
    ∧ normalizeArgs ["cargo-leptos", "leptos", "build"]
        = normalizeArgs (["cargo-leptos", "leptos", "build"].eraseIdx 1) :=
  ⟨(c10_leptos_arg_stripped_once ["cargo-leptos", "leptos", "build"]).1 (by decide),
   (c10_leptos_arg_stripped_once ["cargo-leptos", "build"]).2.1 (by decide),
   (c10_leptos_arg_stripped_once ["cargo-leptos", "leptos", "build"]).2.2
     (by decide) (by decide)⟩

end CargoLeptos
